import Mathlib

/-!
Verification development for the node-divert addon (src/windivert.cc,
src/node-windivert.h): a Node.js wrapper around the WinDivert packet
filtering driver.  The C++ class `WinDivert` owns a driver handle, a
thread-safe-function callback registration (`tsfn`), a capture thread
(`recvThread`) and an atomic cancellation flag (`closeFlag`), and exposes
the JS methods `open`, `recv`, `send`, `close` and `HelperCalcChecksums`.

The external WinDivert driver (WinDivertOpen / WinDivertRecv /
WinDivertSend / WinDivertClose / WinDivertHelperCalcChecksums) and the OS
message facility (FormatMessageW) are modelled as an opaque oracle
(`Driver`): the wrapper treats them as correct collaborators.

Each JS method is embedded as a pure function from the session state (and
the method arguments) to a result value or thrown error, the updated
session state, and the list of externally visible effects (driver calls,
thread start/join, flag writes), in the order the C++ code performs them.
The background capture thread `ThreadFunction` is embedded as a function
of the finite schedule of per-iteration observations it makes (flag value,
handle validity, driver receive result, BlockingCall status), producing
the ordered trace of events it emits and the reason it exited, if any.
-/

namespace NodeDivert

/-- A JavaScript exception thrown across the N-API boundary:
`Napi::Error` or `Napi::TypeError`, with its message string. -/
inductive JsError where
  | err (msg : String)
  | typeErr (msg : String)
deriving DecidableEq

/-- A JavaScript value returned across the N-API boundary by one of the
wrapper methods.  `checksums udp tcp ip` is the object
`{UDPChecksum, TCPChecksum, IPChecksum}` built by `HelperCalcChecksums`. -/
inductive JsValue where
  | undefined
  | null
  | boolean (b : Bool)
  | number (n : Nat)
  | str (s : String)
  | checksums (udp tcp ip : Nat)
deriving DecidableEq

/-- A constructor argument as seen through N-API type tests
(`IsString`, `IsNumber`). -/
inductive JsArg where
  | str (s : String)
  | num (n : Nat)
  | other
deriving DecidableEq

/-- The mutable state of one `WinDivert` C++ object.
`handle_ = none` models `handle_ == INVALID_HANDLE_VALUE`;
`tsfn = some cb` models a live `Napi::ThreadSafeFunction` wrapping the JS
callback identified by `cb`; `recvThreadJoinable` models
`recvThread.joinable()`; `closeFlag` is the atomic cancellation flag. -/
structure Session where
  filter_ : String
  layer_ : Nat
  flags_ : Nat
  handle_ : Option Nat
  tsfn : Option Nat
  recvThreadJoinable : Bool
  closeFlag : Nat
deriving DecidableEq

/-- Oracle for the external WinDivert driver and the OS.
Each field gives the outcome of one external primitive:
`Except.error code` models a FALSE/invalid return with `GetLastError()`
reporting `code`. -/
structure Driver where
  /-- `WinDivertOpen(filter, layer, priority, flags)`: a fresh handle or
  an error code. (The wrapper always passes priority 0.) -/
  openResult : String → Nat → Nat → Except Nat Nat
  /-- `FormatMessageW` system text for an error code. -/
  sysMessage : Nat → String
  /-- `WinDivertSend(handle, packet, len, &sendLen, addr)`: the number of
  bytes injected (`pSendLen`) or an error code. -/
  sendResult : Nat → List Nat → List Nat → Except Nat Nat
  /-- `WinDivertClose(handle)`. -/
  closeResult : Nat → Except Nat Unit
  /-- `WinDivertHelperCalcChecksums(packet, len, &addr, flags)`: the
  `(UDPChecksum, TCPChecksum, IPChecksum)` fields written into `addr`,
  or an error code. -/
  calcResult : List Nat → Nat → Except Nat (Nat × Nat × Nat)

/-- An externally visible side effect performed by a wrapper method, in
program order. -/
inductive Effect where
  | driverOpen (filter : String) (layer priority flags : Nat)
  | driverSend (handle : Nat) (payload addrBuf : List Nat)
  | driverClose (handle : Nat)
  | driverCalc (payload : List Nat) (flags : Nat)
  | osCloseHandle (handle : Nat)
  | setCloseFlag (v : Nat)
  | threadStarted
deriving DecidableEq

/-- Modelled from the spec: `sizeof(WINDIVERT_ADDRESS)`.  The driver
header `windivert.h` is external to this repository; per the spec the
address record is a fixed-layout structure whose trailing reserved
region is 64 bytes, giving 16 bytes of fixed metadata and a total size
of 80 bytes. -/
def sizeofWINDIVERT_ADDRESS : Nat := 80

/-- Message of the guard thrown by `recv`, `send` and `close` when
`handle_ == INVALID_HANDLE_VALUE`. -/
def notOpenMsg : String := "Filter not opened. Use open method first."

/-- The result triple of a wrapper method: the JS return value or thrown
error, the session state afterwards, and the effects performed. -/
def MethodResult : Type := Except JsError JsValue × Session × List Effect

/-- The `WinDivert::WinDivert` constructor (src/windivert.cc lines 36-59).
`junkLayer`, `junkFlags` and `junkCloseFlag` are the indeterminate values
the uninitialized members `layer_`, `flags_` and `closeFlag` hold when the
constructor does not assign them: `layer_` is assigned only when a second
numeric argument is present, `flags_` only when a third is, and
`closeFlag` never.  `handle_` is set to `INVALID_HANDLE_VALUE` at the
end. -/
def construct (junkLayer junkFlags junkCloseFlag : Nat) (args : List JsArg) :
    Except JsError Session :=
  match args.head? with
  | some (JsArg.str f) =>
    Except.ok
      { filter_ := f
        layer_ := match args.get? 1 with
          | some (JsArg.num n) => n
          | _ => junkLayer
        flags_ := match args.get? 2 with
          | some (JsArg.num n) => n
          | _ => junkFlags
        handle_ := none
        tsfn := none
        recvThreadJoinable := false
        closeFlag := junkCloseFlag }
  | _ => Except.error (JsError.typeErr "String filter expected")

/-- The advisory diagnostic text `WinDivert::open` appends for well-known
error codes (src/windivert.cc lines 151-187). -/
def openAdvice (code : Nat) : String :=
  if code = 2 then
    "The driver files WinDivert32.sys or WinDivert64.sys were not found.\n"
  else if code = 654 then
    "An incompatible version of the WinDivert driver is currently loaded.\n" ++
    "Please unload it with the following commands ran as administrator:\n\n" ++
    "sc stop windivert\nsc delete windivert\nsc stop windivert14\nsc delete windivert14\n"
  else if code = 1275 then
    "This error occurs for various reasons, including:\n" ++
    "the WinDivert driver is blocked by security software; or\n" ++
    "you are using a virtualization environment that does not support drivers.\n"
  else if code = 1753 then
    "This error occurs when the Base Filtering Engine service has been disabled.\n" ++
    "Enable Base Filtering Engine service.\n"
  else if code = 577 then
    "Could not load driver due to invalid digital signature.\n" ++
    "Windows Server 2016 systems must have secure boot disabled to be \n" ++
    "able to load WinDivert driver.\n" ++
    "Windows 7 systems must be up-to-date or at least have KB3033929 installed.\n" ++
    "https://www.microsoft.com/en-us/download/details.aspx?id=46078\n\n" ++
    "WARNING! If you see this error on Windows 7, it means your system is horribly " ++
    "outdated and SHOULD NOT BE USED TO ACCESS THE INTERNET!\n" ++
    "Most probably, you don\x27t have security patches installed and anyone in your LAN or " ++
    "public Wi-Fi network can get full access to your computer (MS17-010 and others).\n" ++
    "You should install updates IMMEDIATELY.\n"
  else ""

/-- `WinDivert::open` (src/windivert.cc lines 121-193).  Fails with
"Filter already opened" when the handle is already valid, without calling
the driver; otherwise calls `WinDivertOpen(filter_, layer_, 0, flags_)`
and either stores the handle or throws the mapped diagnostic. -/
def openSession (d : Driver) (s : Session) : MethodResult :=
  match s.handle_ with
  | some _ => (Except.error (JsError.err "Filter already opened"), s, [])
  | none =>
    match d.openResult s.filter_ s.layer_ s.flags_ with
    | Except.error code =>
      (Except.error (JsError.typeErr
        ("Error opening filter: [" ++ toString code ++ "] " ++
          d.sysMessage code ++ openAdvice code)),
       s, [Effect.driverOpen s.filter_ s.layer_ 0 s.flags_])
    | Except.ok h =>
      (Except.ok JsValue.undefined,
       { s with handle_ := some h },
       [Effect.driverOpen s.filter_ s.layer_ 0 s.flags_])

/-- `WinDivert::recv` (src/windivert.cc lines 88-113).  `cbArg = some cb`
models a function argument; `none` models a missing or non-function
argument.  On success the thread-safe function is (re)created around the
new callback, and `StartThread` runs only when `recvThread` is not
joinable. -/
def recv (s : Session) (cbArg : Option Nat) : MethodResult :=
  match s.handle_ with
  | none => (Except.error (JsError.err notOpenMsg), s, [])
  | some _ =>
    match cbArg with
    | none => (Except.error (JsError.typeErr "Function expected as argument"), s, [])
    | some cb =>
      if s.recvThreadJoinable then
        (Except.ok (JsValue.str "Recv method executed"), { s with tsfn := some cb }, [])
      else
        (Except.ok (JsValue.str "Recv method executed"),
         { s with tsfn := some cb, closeFlag := 0, recvThreadJoinable := true },
         [Effect.setCloseFlag 0, Effect.threadStarted])

/-- `WinDivert::send` (src/windivert.cc lines 240-276).  `arg = some
(packet, addrBuffer)` models a well-formed object argument with its
`packet` and `addr` buffers; `none` models a missing or non-object
argument.  The address buffer must be at least
`sizeof(WINDIVERT_ADDRESS) - 64` bytes; on success the method returns the
BOOL returned by `WinDivertSend` as a JS boolean. -/
def send (d : Driver) (s : Session) (arg : Option (List Nat × List Nat)) :
    MethodResult :=
  match s.handle_ with
  | none => (Except.error (JsError.err notOpenMsg), s, [])
  | some h =>
    match arg with
    | none => (Except.error (JsError.typeErr "Object expected"), s, [])
    | some (packet, addrBuffer) =>
      if addrBuffer.length < sizeofWINDIVERT_ADDRESS - 64 then
        (Except.error (JsError.typeErr "Invalid addr buffer size"), s, [])
      else
        match d.sendResult h packet addrBuffer with
        | Except.error code =>
          (Except.error (JsError.err
            ("Packet send failed with error code: " ++ toString code)),
           s, [Effect.driverSend h packet addrBuffer])
        | Except.ok _pSendLen =>
          (Except.ok (JsValue.boolean true), s, [Effect.driverSend h packet addrBuffer])

/-- `WinDivert::HelperCalcChecksums` (src/windivert.cc lines 203-232).
`arg = some (packet, flags)` models well-formed arguments; `none` models
the argument-count/type failure.  Note: the method performs no check of
`handle_` — it delegates to the driver helper in every session state. -/
def HelperCalcChecksums (d : Driver) (s : Session) (arg : Option (List Nat × Nat)) :
    MethodResult :=
  match arg with
  | none =>
    (Except.error (JsError.typeErr
      ("Invalid arguments.  Expected usage: HelperCalcChecksums(" ++
        "\x7bpacket: Buffer, ...\x7d, number)")), s, [])
  | some (packet, flags) =>
    match d.calcResult packet flags with
    | Except.error code =>
      (Except.error (JsError.err
        ("Checksum calculation failed with error code: " ++ toString code)),
       s, [Effect.driverCalc packet flags])
    | Except.ok (udp, tcp, ip) =>
      (Except.ok (JsValue.checksums udp tcp ip), s, [Effect.driverCalc packet flags])

/-- `WinDivert::StopThread` (src/windivert.cc lines 313-324).  When the
capture thread is not joinable it returns at once, doing nothing.  When
it is joinable it sets the cancellation flag and calls
`recvThread.join()` — and that join never returns: either the loop stays
blocked forever in `WinDivertRecv`, or the loop exits and the thread's
own epilogue (src/windivert.cc lines 400-407) self-joins `recvThread`,
which throws `std::system_error` (resource_deadlock_would_occur) uncaught
and calls `std::terminate`, aborting the process before the join can
complete.  The release at line 321 is therefore never reached.  `none`
models StopThread — and with it its caller — not returning. -/
def StopThread (s : Session) : Option (Session × List Effect) :=
  if s.recvThreadJoinable then none
  else some (s, [])

/-- `WinDivert::close` (src/windivert.cc lines 284-308).  Guards on the
handle, then calls `StopThread`; when a capture thread is running,
`StopThread` never returns (see its comment), so neither does `close` —
modelled by `none`.  Otherwise it calls `WinDivertClose`; on driver
failure it throws with the error code and leaves `handle_` unchanged; on
success it calls `CloseHandle` and invalidates `handle_`. -/
def close (d : Driver) (s : Session) : Option MethodResult :=
  match s.handle_ with
  | none => some (Except.error (JsError.err notOpenMsg), s, [])
  | some h =>
    match StopThread s with
    | none => none
    | some (s1, eff) =>
      match d.closeResult h with
      | Except.error code =>
        some (Except.error (JsError.err
          ("WinDivert close failed with error code: " ++ toString code)),
         s1, eff ++ [Effect.driverClose h])
      | Except.ok _ =>
        some (Except.ok (JsValue.boolean true),
         { s1 with handle_ := none },
         eff ++ [Effect.driverClose h, Effect.osCloseHandle h])

/-- One packet as produced by `WinDivertRecv`: the `packetLen`-byte
payload snapshot and the `WINDIVERT_ADDRESS` bytes. -/
structure Packet where
  payload : List Nat
  addr : List Nat
deriving DecidableEq

instance {ε α : Type} [DecidableEq ε] [DecidableEq α] : DecidableEq (Except ε α) := fun x y =>
  match x, y with
  | Except.error a, Except.error b =>
    if h : a = b then Decidable.isTrue (by rw [h])
    else Decidable.isFalse (by intro hc; cases hc; exact h rfl)
  | Except.error _, Except.ok _ => Decidable.isFalse (by intro hc; cases hc)
  | Except.ok _, Except.error _ => Decidable.isFalse (by intro hc; cases hc)
  | Except.ok a, Except.ok b =>
    if h : a = b then Decidable.isTrue (by rw [h])
    else Decidable.isFalse (by intro hc; cases hc; exact h rfl)

/-- What one iteration of the capture loop observes: the value of the
atomic `closeFlag`, whether `handle_` is still valid, the outcome of the
blocking `WinDivertRecv` (error code or packet), and the `napi_status` of
`tsfn.BlockingCall` (0 = `napi_ok`). -/
structure IterObs where
  closeFlag : Nat
  handleValid : Bool
  recvResult : Except Nat Packet
  callStatus : Nat
deriving DecidableEq

/-- An event emitted by the capture loop, in program order.
`packetReceived` marks a successful `WinDivertRecv`; `delivered` marks
the hand-off of that packet to the JS callback (the snapshot copies
passed to `jsCallback.Call`). -/
inductive LoopEvent where
  | logHandleInvalid
  | logRecvError (code : Nat)
  | packetReceived (payload addr : List Nat)
  | delivered (payload addr : List Nat)
  | logCallbackFailed (status : Nat)
deriving DecidableEq

/-- Why the capture loop exited. -/
inductive LoopExit where
  | cancelled
  | handleInvalid
  | callbackFailed
deriving DecidableEq

/-- The while loop of `WinDivert::ThreadFunction` (src/windivert.cc
lines 359-398), as a function of the schedule of observations its
iterations make.  Each iteration: exit if `closeFlag == 1`; exit (after
logging) if the handle is invalid; on a failed receive, log and
continue; on a successful receive, hand the packet to the callback via
`BlockingCall` and exit if the call fails, otherwise continue.  An
exhausted schedule with the loop still running yields exit `none` (the
loop is still blocked in the driver).  The full thread body, epilogue
included, is `threadEntry` below. -/
def ThreadFunction : List IterObs → List LoopEvent × Option LoopExit
  | [] => ([], none)
  | o :: rest =>
    if o.closeFlag = 1 then ([], some LoopExit.cancelled)
    else if o.handleValid = false then
      ([LoopEvent.logHandleInvalid], some LoopExit.handleInvalid)
    else
      match o.recvResult with
      | Except.error code =>
        (LoopEvent.logRecvError code :: (ThreadFunction rest).1, (ThreadFunction rest).2)
      | Except.ok p =>
        if o.callStatus = 0 then
          (LoopEvent.packetReceived p.payload p.addr ::
            LoopEvent.delivered p.payload p.addr :: (ThreadFunction rest).1,
           (ThreadFunction rest).2)
        else
          ([LoopEvent.packetReceived p.payload p.addr,
            LoopEvent.logCallbackFailed o.callStatus],
           some LoopExit.callbackFailed)

/-- How the capture thread's entry function ends. -/
inductive ThreadEnd where
  /-- The loop never exited within the schedule: the thread is still
  blocked in the driver receive and the epilogue has not run. -/
  | blocked
  /-- The loop exited; the epilogue released `tsfn` and then self-joined
  `recvThread`, throwing `std::system_error` uncaught — `std::terminate`
  aborted the whole process. -/
  | aborted
deriving DecidableEq

/-- The whole body of `WinDivert::ThreadFunction` (src/windivert.cc
lines 354-408): the capture loop (`ThreadFunction`, lines 359-398)
followed by the epilogue (lines 400-407), which releases `tsfn` if live
and then runs `if (recvThread.joinable()) recvThread.join()`.  That
code executes on `recvThread` itself, so `joinable()` is true and the
self-join throws `std::system_error` (resource_deadlock_would_occur);
the exception is uncaught in the thread entry, so `std::terminate`
aborts the process.  The thread therefore never terminates normally: on
every loop exit the process dies. -/
def threadEntry (sched : List IterObs) : List LoopEvent × ThreadEnd :=
  match ThreadFunction sched with
  | (evs, none) => (evs, ThreadEnd.blocked)
  | (evs, some _) => (evs, ThreadEnd.aborted)

/-- An event of a whole-session run in which `close` is called while the
capture thread is running: the loop's own events, the flag write done by
`StopThread`, the epilogue steps of the exiting capture thread, and —
were it ever reached — the moment `close` returns with its result. -/
inductive RunEvent where
  | loop (e : LoopEvent)
  | closeFlagSet
  /-- `tsfn.Release()` at line 402, performed by the capture thread
  itself after its loop exits. -/
  | tsfnReleasedByThread
  /-- `std::terminate` from the capture thread's uncaught self-join
  (lines 404-406). -/
  | processAborted
  | closeReturned (r : Except JsError JsValue)
deriving DecidableEq

/-- The run of `close` on a session with a valid handle whose joinable
capture thread executes under the observation schedule `sched`
(src/windivert.cc lines 284-308, 313-324 and 354-408).  `close` first
sets the cancellation flag, then calls `recvThread.join()`.  If the
schedule leaves the loop still running (exit `none`, blocked forever in
`WinDivertRecv`), the join blocks and the run simply stops.  If the loop
exits, the capture thread's epilogue releases `tsfn` and then self-joins
`recvThread`, throwing `std::system_error` uncaught: `std::terminate`
aborts the process.  Either way the join in `StopThread` never returns,
`WinDivertClose` is never reached, and no `closeReturned` event can
occur. -/
def closeRun (sched : List IterObs) : List RunEvent :=
  match threadEntry sched with
  | (evs, ThreadEnd.blocked) => RunEvent.closeFlagSet :: evs.map RunEvent.loop
  | (evs, ThreadEnd.aborted) =>
    RunEvent.closeFlagSet :: evs.map RunEvent.loop ++
      [RunEvent.tsfnReleasedByThread, RunEvent.processAborted]

/-- Concrete driver that accepts everything: `open` yields handle 7,
`send` accepts the whole payload, `close` succeeds, checksum computation
yields (1,2,3). -/
def dOk : Driver where
  openResult := fun _ _ _ => Except.ok 7
  sysMessage := fun _ => ""
  sendResult := fun _ packet _ => Except.ok packet.length
  closeResult := fun _ => Except.ok ()
  calcResult := fun _ _ => Except.ok (1, 2, 3)

/-- Concrete driver that rejects everything with distinct error codes. -/
def dFail : Driver where
  openResult := fun _ _ _ => Except.error 2
  sysMessage := fun _ => "system message"
  sendResult := fun _ _ _ => Except.error 6
  closeResult := fun _ => Except.error 5
  calcResult := fun _ _ => Except.error 87

/-- A session constructed but never opened. -/
def sClosed : Session :=
  { filter_ := "true", layer_ := 0, flags_ := 0, handle_ := none,
    tsfn := none, recvThreadJoinable := false, closeFlag := 0 }

/-- An open session with no capture thread. -/
def sOpen : Session :=
  { filter_ := "true", layer_ := 0, flags_ := 0, handle_ := some 7,
    tsfn := none, recvThreadJoinable := false, closeFlag := 0 }

/-- An open session with a registered consumer and a running capture
thread. -/
def sOpenThread : Session :=
  { filter_ := "true", layer_ := 0, flags_ := 0, handle_ := some 7,
    tsfn := some 1, recvThreadJoinable := true, closeFlag := 0 }

/-- Loop observation: flag clear, handle valid, receive fails with
code 5, callback would succeed. -/
def obsErr : IterObs :=
  { closeFlag := 0, handleValid := true, recvResult := Except.error 5, callStatus := 0 }

/-- Loop observation: cancellation flag set. -/
def obsCancel : IterObs :=
  { closeFlag := 1, handleValid := true, recvResult := Except.error 0, callStatus := 0 }

/-- C2 counterexample: on a session whose handle is invalid (never
opened), `HelperCalcChecksums` does not fail with the NotOpen error and
is not side-effect free — it calls the driver helper and returns the
checksum object. -/
theorem calcChecksums_ignores_open_state_cex :
    (HelperCalcChecksums dOk sClosed (some ([0, 1], 0))).1 =
      Except.ok (JsValue.checksums 1 2 3) ∧
    (HelperCalcChecksums dOk sClosed (some ([0, 1], 0))).2.2 =
      [Effect.driverCalc [0, 1] 0] :=
  ⟨rfl, rfl⟩

/-- C2 (amended): with the handle invalid, `send`, `recv` and `close`
each fail with the NotOpen error, leave every session field unchanged and
perform no side effect; `HelperCalcChecksums`, however, performs no
open-state check — its result and its effects are identical whatever the
handle field holds. -/
theorem not_open_guards (d : Driver) (s : Session) (hs : s.handle_ = none)
    (cbArg : Option Nat) (sendArg : Option (List Nat × List Nat))
    (calcArg : Option (List Nat × Nat)) (hAlt : Option Nat) :
    send d s sendArg = (Except.error (JsError.err notOpenMsg), s, []) ∧
    recv s cbArg = (Except.error (JsError.err notOpenMsg), s, []) ∧
    close d s = some (Except.error (JsError.err notOpenMsg), s, []) ∧
    (HelperCalcChecksums d s calcArg).1 =
      (HelperCalcChecksums d { s with handle_ := hAlt } calcArg).1 ∧
    (HelperCalcChecksums d s calcArg).2.2 =
      (HelperCalcChecksums d { s with handle_ := hAlt } calcArg).2.2 := by
  refine ⟨by simp [send, hs], by simp [recv, hs], by simp [close, hs], ?_, ?_⟩ <;>
  · match calcArg with
    | none => rfl
    | some (packet, flags) =>
      match hres : d.calcResult packet flags with
      | Except.error code => simp [HelperCalcChecksums, hres]
      | Except.ok (udp, tcp, ip) => simp [HelperCalcChecksums, hres]

/-- Witness for the amended C2 theorem at a concrete closed session. -/
theorem not_open_guards_witness :
    send dOk sClosed (some ([1], [0])) =
      (Except.error (JsError.err notOpenMsg), sClosed, []) :=
  (not_open_guards dOk sClosed rfl none (some ([1], [0])) none none).1

/-- C3 counterexample: on an open session with a driver that accepts a
20-byte send (reporting 20 bytes accepted), `send` returns the JS boolean
`true` — not the number of bytes accepted by the driver. -/
theorem send_returns_boolean_cex :
    (send dOk sOpen (some (List.replicate 20 0, List.replicate 64 0))).1 =
      Except.ok (JsValue.boolean true) ∧
    (Except.ok (JsValue.boolean true) : Except JsError JsValue) ≠
      Except.ok (JsValue.number 20) :=
  ⟨rfl, by decide⟩

/-- C3 (amended): on an open session, `send` forwards payload and address
to the driver's blocking send primitive; when the driver accepts it,
`send` returns the driver's BOOL success as the JS boolean `true` (the
driver-reported byte count `pSendLen` is discarded); when the driver
rejects it, `send` fails with an error carrying the driver's OS error
code. -/
theorem send_forwards_driver_result (d : Driver) (s : Session) (h : Nat)
    (packet addrBuffer : List Nat) (hh : s.handle_ = some h)
    (hlen : sizeofWINDIVERT_ADDRESS - 64 ≤ addrBuffer.length) :
    (∀ n, d.sendResult h packet addrBuffer = Except.ok n →
      send d s (some (packet, addrBuffer)) =
        (Except.ok (JsValue.boolean true), s,
         [Effect.driverSend h packet addrBuffer])) ∧
    (∀ code, d.sendResult h packet addrBuffer = Except.error code →
      send d s (some (packet, addrBuffer)) =
        (Except.error (JsError.err
          ("Packet send failed with error code: " ++ toString code)),
         s, [Effect.driverSend h packet addrBuffer])) := by
  have hlt : ¬ addrBuffer.length < sizeofWINDIVERT_ADDRESS - 64 := not_lt.mpr hlen
  exact ⟨fun n hr => by simp [send, hh, hlt, hr],
         fun code hr => by simp [send, hh, hlt, hr]⟩

/-- Witness for the amended C3 theorem: a driver that accepts the 20-byte
send yields boolean `true`; a driver that rejects with code 6 yields the
SendFailed error carrying 6. -/
theorem send_forwards_driver_result_witness :
    send dOk sOpen (some (List.replicate 20 0, List.replicate 64 0)) =
      (Except.ok (JsValue.boolean true), sOpen,
       [Effect.driverSend 7 (List.replicate 20 0) (List.replicate 64 0)]) ∧
    send dFail sOpen (some (List.replicate 20 0, List.replicate 64 0)) =
      (Except.error (JsError.err
        ("Packet send failed with error code: " ++ toString 6)),
       sOpen, [Effect.driverSend 7 (List.replicate 20 0) (List.replicate 64 0)]) :=
  ⟨(send_forwards_driver_result dOk sOpen 7 (List.replicate 20 0)
      (List.replicate 64 0) rfl (by decide)).1 20 rfl,
   (send_forwards_driver_result dFail sOpen 7 (List.replicate 20 0)
      (List.replicate 64 0) rfl (by decide)).2 6 rfl⟩

/-- C6: on an open session, `send` with an address buffer shorter than
`sizeof(WINDIVERT_ADDRESS) - 64` bytes (the structure size minus its
64-byte reserved tail) fails with the TypeError "Invalid addr buffer
size", leaving the session unchanged and performing no driver call. -/
theorem send_short_addr_rejected (d : Driver) (s : Session) (h : Nat)
    (packet addrBuffer : List Nat) (hh : s.handle_ = some h)
    (hlen : addrBuffer.length < sizeofWINDIVERT_ADDRESS - 64) :
    send d s (some (packet, addrBuffer)) =
      (Except.error (JsError.typeErr "Invalid addr buffer size"), s, []) := by
  simp [send, hh, hlen]

/-- Witness for C6 at a 4-byte address buffer. -/
theorem send_short_addr_rejected_witness :
    send dOk sOpen (some ([1, 2], [0, 0, 0, 0])) =
      (Except.error (JsError.typeErr "Invalid addr buffer size"), sOpen, []) :=
  send_short_addr_rejected dOk sOpen 7 [1, 2] [0, 0, 0, 0] rfl (by decide)

/-- C7: `open` on a session whose handle is already valid fails with the
"Filter already opened" error, performs no driver call, and leaves the
whole session state (its handle included) unchanged. -/
theorem open_already_open (d : Driver) (s : Session) (h : Nat)
    (hh : s.handle_ = some h) :
    openSession d s = (Except.error (JsError.err "Filter already opened"), s, []) := by
  simp [openSession, hh]

/-- Witness for C7 at a concrete open session. -/
theorem open_already_open_witness :
    openSession dOk sOpen =
      (Except.error (JsError.err "Filter already opened"), sOpen, []) :=
  open_already_open dOk sOpen 7 rfl

/-- C8: on an open session, `recv` registers the new callback as the sole
consumer (replacing any previous registration) and ensures exactly one
capture thread: when one is joinable it is reused with no thread start;
when none is, exactly one thread is started. -/
theorem recv_replaces_callback_single_thread (s : Session) (h cb : Nat)
    (hh : s.handle_ = some h) :
    (recv s (some cb)).2.1.tsfn = some cb ∧
    (recv s (some cb)).2.1.recvThreadJoinable = true ∧
    (s.recvThreadJoinable = true →
      recv s (some cb) =
        (Except.ok (JsValue.str "Recv method executed"),
         { s with tsfn := some cb }, [])) ∧
    (s.recvThreadJoinable = false →
      recv s (some cb) =
        (Except.ok (JsValue.str "Recv method executed"),
         { s with tsfn := some cb, closeFlag := 0, recvThreadJoinable := true },
         [Effect.setCloseFlag 0, Effect.threadStarted])) := by
  cases hj : s.recvThreadJoinable <;> simp [recv, hh, hj]

/-- Witness for C8: a second `recv` on a session with a running thread
replaces the registration. -/
theorem recv_replaces_callback_single_thread_witness :
    (recv sOpenThread (some 2)).2.1.tsfn = some 2 :=
  (recv_replaces_callback_single_thread sOpenThread 7 2 rfl).1

/-- C9 counterexample: on an open session with a running capture thread,
`close` never returns at all — the capture thread's exit path self-joins
and aborts the process before `WinDivertClose` is reached — so with a
driver whose close fails with code 5, `close` neither raises that error
nor leaves the session retriable as the original claim states for every
open session. -/
theorem close_running_thread_cex : close dFail sOpenThread = none := rfl

/-- C9 (amended): on an open session with no running capture thread,
when the driver's close primitive fails `close` throws an error carrying
the OS error code, performs only the driver close call, and leaves the
session — its still-valid handle included — unchanged, so close can be
retried; the handle is invalidated only after a successful driver close.
(With a running capture thread `close` never returns: see the
counterexample.) -/
theorem close_failure_keeps_handle (d : Driver) (s : Session) (h : Nat)
    (hh : s.handle_ = some h) (hj : s.recvThreadJoinable = false) :
    (∀ code, d.closeResult h = Except.error code →
      close d s = some (Except.error (JsError.err
        ("WinDivert close failed with error code: " ++ toString code)),
        s, [Effect.driverClose h])) ∧
    (d.closeResult h = Except.ok () →
      close d s = some (Except.ok (JsValue.boolean true),
        { s with handle_ := none },
        [Effect.driverClose h, Effect.osCloseHandle h])) := by
  constructor
  · intro code hc
    simp [close, StopThread, hh, hj, hc]
  · intro hc
    simp [close, StopThread, hh, hj, hc]

/-- Witness for C9: on a threadless open session, a driver whose close
fails with code 5 leaves the session open with its handle intact. -/
theorem close_failure_keeps_handle_witness :
    close dFail sOpen = some (Except.error (JsError.err
      ("WinDivert close failed with error code: " ++ toString 5)),
      sOpen, [Effect.driverClose 7]) :=
  (close_failure_keeps_handle dFail sOpen 7 rfl rfl).1 5 rfl

/-- C10: constructed with only a filter string, the session's `layer_`
and `flags_` fields are never assigned — they keep whatever indeterminate
values the uninitialized members held (modelled by the arbitrary junk
parameters) — and a later `open` passes exactly those values to
`WinDivertOpen`; no default of 0 is applied. -/
theorem ctor_leaves_layer_flags_unassigned (junkLayer junkFlags junkCloseFlag : Nat)
    (f : String) (d : Driver) :
    ∃ s, construct junkLayer junkFlags junkCloseFlag [JsArg.str f] = Except.ok s ∧
      s.layer_ = junkLayer ∧ s.flags_ = junkFlags ∧ s.handle_ = none ∧
      (openSession d s).2.2 = [Effect.driverOpen f junkLayer 0 junkFlags] := by
  refine ⟨_, rfl, rfl, rfl, rfl, ?_⟩
  cases hr : d.openResult f junkLayer junkFlags with
  | error code => simp [openSession, construct, hr]
  | ok hdl => simp [openSession, construct, hr]

/-- C5: a failed driver receive is non-fatal — the loop logs the error
code and continues, behaving on the remaining schedule exactly as a
running loop — and the loop exits only for one of three reasons: it
observed the cancellation flag set, it observed the handle invalid, or
the hand-off to the consumer failed. -/
theorem capture_loop_error_policy (sched : List IterObs) :
    (∀ o rest code, sched = o :: rest → ¬ o.closeFlag = 1 →
      o.handleValid = true → o.recvResult = Except.error code →
      ThreadFunction sched =
        (LoopEvent.logRecvError code :: (ThreadFunction rest).1,
         (ThreadFunction rest).2)) ∧
    (∀ ex, (ThreadFunction sched).2 = some ex →
      ∃ o, o ∈ sched ∧
        ((ex = LoopExit.cancelled ∧ o.closeFlag = 1) ∨
         (ex = LoopExit.handleInvalid ∧ o.handleValid = false) ∨
         (ex = LoopExit.callbackFailed ∧ ¬ o.callStatus = 0))) := by
  constructor
  · intro o rest code hsched hflag hvalid hr
    subst hsched
    simp [ThreadFunction, hflag, hvalid, hr]
  · induction sched with
    | nil => intro ex hex; simp [ThreadFunction] at hex
    | cons o rest ih =>
      intro ex hex
      by_cases hflag : o.closeFlag = 1
      · simp [ThreadFunction, hflag] at hex
        exact ⟨o, List.mem_cons_self o rest, Or.inl ⟨hex.symm, hflag⟩⟩
      · by_cases hvalid : o.handleValid = false
        · simp [ThreadFunction, hflag, hvalid] at hex
          exact ⟨o, List.mem_cons_self o rest, Or.inr (Or.inl ⟨hex.symm, hvalid⟩)⟩
        · cases hr : o.recvResult with
          | error code =>
            simp [ThreadFunction, hflag, hvalid, hr] at hex
            obtain ⟨w, hw, hcase⟩ := ih ex hex
            exact ⟨w, List.mem_cons_of_mem o hw, hcase⟩
          | ok p =>
            by_cases hs : o.callStatus = 0
            · simp [ThreadFunction, hflag, hvalid, hr, hs] at hex
              obtain ⟨w, hw, hcase⟩ := ih ex hex
              exact ⟨w, List.mem_cons_of_mem o hw, hcase⟩
            · simp [ThreadFunction, hflag, hvalid, hr, hs] at hex
              exact ⟨o, List.mem_cons_self o rest,
                Or.inr (Or.inr ⟨hex.symm, hs⟩)⟩

/-- Witness for C5: a receive failure with code 5 is logged and the loop
continues into the next iteration of the schedule. -/
theorem capture_loop_error_policy_witness :
    ThreadFunction [obsErr, obsCancel] =
      (LoopEvent.logRecvError 5 :: (ThreadFunction [obsCancel]).1,
       (ThreadFunction [obsCancel]).2) :=
  (capture_loop_error_policy [obsErr, obsCancel]).1 obsErr [obsCancel] 5 rfl
    (by decide) rfl rfl

/-- C1 (code bug): the claimed protocol — `close` signals the
cancellation flag, joins the capture thread and then returns — is not
program behavior: `close` never returns on a session with a running
capture thread.  In every close run no `closeReturned` event occurs; if
the blocking receive never returns the join blocks forever, and whenever
the loop does exit (cancellation observed, handle invalid, or hand-off
failed) the run's final event is the process abort raised by the capture
thread's self-join of `recvThread` (src/windivert.cc lines 404-406),
which `StopThread`'s pending join can never survive. -/
theorem close_never_returns (sched : List IterObs) :
    (∀ r, RunEvent.closeReturned r ∉ closeRun sched) ∧
    (∀ ex, (ThreadFunction sched).2 = some ex →
      (closeRun sched).getLast? = some RunEvent.processAborted) := by
  cases hex : (ThreadFunction sched).2 with
  | none =>
    have hrun : closeRun sched =
        RunEvent.closeFlagSet :: (ThreadFunction sched).1.map RunEvent.loop := by
      rw [closeRun, threadEntry]
      cases htf : ThreadFunction sched with
      | mk evs ox => rw [htf] at hex; cases hex; rfl
    constructor
    · intro r hmem
      rw [hrun] at hmem
      simp [List.mem_map] at hmem
    · intro ex hx
      simp at hx
  | some ex0 =>
    have hrun : closeRun sched =
        RunEvent.closeFlagSet :: (ThreadFunction sched).1.map RunEvent.loop ++
          [RunEvent.tsfnReleasedByThread, RunEvent.processAborted] := by
      rw [closeRun, threadEntry]
      cases htf : ThreadFunction sched with
      | mk evs ox => rw [htf] at hex; cases hex; rfl
    constructor
    · intro r hmem
      rw [hrun] at hmem
      simp [List.mem_map] at hmem
    · intro ex hx
      rw [hrun]
      have hsplit : RunEvent.closeFlagSet ::
          (ThreadFunction sched).1.map RunEvent.loop ++
          [RunEvent.tsfnReleasedByThread, RunEvent.processAborted] =
          (RunEvent.closeFlagSet ::
            (ThreadFunction sched).1.map RunEvent.loop ++
            [RunEvent.tsfnReleasedByThread]) ++ [RunEvent.processAborted] := by
        simp
      rw [hsplit]
      exact List.getLast?_concat _

/-- Witness for the C1 code-bug theorem: a run whose loop observes the
cancellation flag at once ends with the process abort; `close` never
returns. -/
theorem close_never_returns_witness :
    RunEvent.closeReturned (Except.ok (JsValue.boolean true)) ∉ closeRun [obsCancel] ∧
    (closeRun [obsCancel]).getLast? = some RunEvent.processAborted :=
  ⟨(close_never_returns [obsCancel]).1 (Except.ok (JsValue.boolean true)),
   (close_never_returns [obsCancel]).2 LoopExit.cancelled rfl⟩

end NodeDivert
